import Mathlib

/-!
Shallow embedding of the reconciliation engine in `src/js/content.js`
(GitLab merge-request list enhancer).  JS strings are Lean `String`s,
DOM nodes are records of the fields the script reads and writes, and
promise chains become explicit outcome values.  Machine-level concerns
(actual HTTP, timers, DOMParser) are modelled by their observable
effects: issued requests, log entries, scheduled delays.
-/

namespace Gmrle

/- ## JS string primitives -/

/-- Whitespace test backing `String.prototype.trim`. -/
def isWsChar (c : Char) : Bool := c.isWhitespace

/-- Drops the trailing whitespace suffix of a character list. -/
def trimRight : List Char → List Char
  | [] => []
  | c :: cs =>
    let r := trimRight cs
    if r.isEmpty && isWsChar c then [] else c :: r

/-- Drops leading then trailing whitespace, as JS `trim()` does. -/
def trimChars (cs : List Char) : List Char := trimRight (cs.dropWhile isWsChar)

/-- JS `s.trim()`. -/
def jsTrim (s : String) : String := ⟨trimChars s.data⟩

/-- JS `s.replace("!", "")`: removes the first `!` occurrence only. -/
def removeFirstBangChars : List Char → List Char
  | [] => []
  | c :: cs => if c = '!' then cs else c :: removeFirstBangChars cs

/-- Identity Extractor: `el.textContent.trim().replace("!", "")`
(`getCurrentMergeRequestIds`, content.js line 444). -/
def extractMergeRequestId (s : String) : String :=
  ⟨removeFirstBangChars (jsTrim s).data⟩

/-- Whether `pat` is a leading chunk of `cs`. -/
def startsWithChars : List Char → List Char → Bool
  | _, [] => true
  | [], _ :: _ => false
  | c :: cs, p :: ps => c == p && startsWithChars cs ps

/-- Whether `pat` occurs contiguously inside `cs`. -/
def containsSubChars (pat : List Char) : List Char → Bool
  | [] => pat.isEmpty
  | c :: rest => startsWithChars (c :: rest) pat || containsSubChars pat rest

/-- JS `s.includes(pat)`. -/
def jsIncludes (s pat : String) : Bool := containsSubChars pat.data s.data

/-- JS `s.endsWith(pat)`. -/
def jsEndsWith (s pat : String) : Bool :=
  startsWithChars s.data.reverse pat.data.reverse

/-- JS `s.toLowerCase()` (ASCII letters are all that reach it here). -/
def jsToLower (s : String) : String := ⟨s.data.map Char.toLower⟩

/-- ASCII digit range used below. -/
def isDigit09 (c : Char) : Bool := '0' ≤ c && c ≤ '9'

/-- ASCII uppercase range of the regex class `[A-Z]`. -/
def isUpperAZ (c : Char) : Bool := 'A' ≤ c && c ≤ 'Z'

/-- Digit run to a number, for `parseInt`. -/
def digitsToNat (ds : List Char) : Nat :=
  ds.foldl (fun a c => a * 10 + (c.toNat - 48)) 0

/-- JS `parseInt(s, 10)`: optional whitespace and sign, then leading
digits; `none` models `NaN`. -/
def jsParseInt (s : String) : Option Int :=
  let body := s.data.dropWhile isWsChar
  let signed : Bool × List Char :=
    match body with
    | '-' :: rest => (true, rest)
    | '+' :: rest => (false, rest)
    | rest => (false, rest)
  let ds := signed.2.takeWhile isDigit09
  if ds.isEmpty then none
  else if signed.1 then some (-(digitsToNat ds : Int)) else some (digitsToNat ds)

/- ## GitLabApiClient (content.js lines 4-117) -/

/-- JSON scalar values appearing in request payloads.  `jnull` stands
for a `NaN` produced by `parseInt`, which `JSON.stringify` renders as
`null`. -/
inductive JsonValue where
  | jnull
  | jnum (n : Int)
  | jstr (s : String)
  deriving DecidableEq

def intOrNull : Option Int → JsonValue
  | some n => JsonValue.jnum n
  | none => JsonValue.jnull

/-- JS `Object.assign(base, extra)`: later keys override earlier. -/
def jsObjectAssign (base extra : List (String × JsonValue)) :
    List (String × JsonValue) :=
  extra.foldl (fun acc kv =>
    if acc.any (fun p => p.1 == kv.1) then
      acc.map (fun p => if p.1 == kv.1 then kv else p)
    else acc ++ [kv]) base

/-- `createEndpointUrl` (line 17): base URL concatenated with the
endpoint; query parameters are carried separately on the request. -/
def createEndpointUrl (baseUrl endpoint : String) : String := baseUrl ++ endpoint

structure HttpRequest where
  method : String
  url : String
  query : List (String × String)
  headers : List (String × String)
  body : Option (List (String × JsonValue))
  deriving DecidableEq

/-- Observable result of `sendRequest`: the fetch actually issued, if
any, plus `console.error` entries.  `issuedFetch = none` is the early
`return;` path, which hands `undefined` (no promise) to the caller. -/
structure SendResult where
  issuedFetch : Option HttpRequest
  errorLog : List String
  deriving DecidableEq

def csrfErrorMessage : String :=
  "Cannot issue POST/PUT/PATCH requests without CSRF token"

/-- `sendRequest` (content.js lines 35-80). -/
def sendRequest (baseUrl : String) (csrfToken : Option String)
    (method endpoint : String) (queryStringParameters : List (String × String))
    (data : Option (List (String × JsonValue))) : SendResult :=
  let isWriteMethod := ["post", "put", "patch"].contains (jsToLower method)
  if isWriteMethod && csrfToken.isNone then
    { issuedFetch := none, errorLog := [csrfErrorMessage] }
  else
    let headers :=
      (if isWriteMethod then [("X-CSRF-Token", csrfToken.getD "")] else []) ++
        (if data.isSome then [("Content-Type", "application/json")] else [])
    { issuedFetch := some
        { method := method
          url := createEndpointUrl baseUrl endpoint
          query := queryStringParameters
          headers := headers
          body := data }
      errorLog := [] }

/-- `getProjectMergeRequests` (lines 85-97). -/
def getProjectMergeRequests (baseUrl : String) (csrfToken : Option String)
    (projectId : String) (mergeRequestIds : List String) : SendResult :=
  sendRequest baseUrl csrfToken "GET"
    ("projects/" ++ projectId ++ "/merge_requests")
    (mergeRequestIds.map (fun mrId => ("iids[]", mrId))) none

/-- `updateProjectMergeRequest` (lines 102-116). -/
def updateProjectMergeRequest (baseUrl : String) (csrfToken : Option String)
    (projectId mergeRequestId : String)
    (data : List (String × JsonValue)) : SendResult :=
  let dataToSend := jsObjectAssign
    [("id", intOrNull (jsParseInt projectId)),
     ("merge_request_iid", intOrNull (jsParseInt mergeRequestId))] data
  sendRequest baseUrl csrfToken "PUT"
    ("projects/" ++ projectId ++ "/merge_requests/" ++ mergeRequestId)
    [] (some dataToSend)

/- ## Data model: fetched records and rendered list items -/

structure Author where
  name : String
  deriving DecidableEq

/-- A merge-request record as returned by the API (the fields the
script reads). -/
structure MergeRequest where
  id : Nat
  iid : Nat
  title : String
  web_url : String
  author : Author
  state : String
  source_branch : String
  target_branch : String
  work_in_progress : Bool
  deriving DecidableEq

/-- The `data-*` attributes of a `.merge-request` node; `none` means
the attribute is absent.  `qaIssueId` and `dataId` are host-owned
(`data-qa-issue-id`, `data-id`); the rest is the AnnotatedState written
by `setDataAttributesToMergeRequestNode`. -/
structure Dataset where
  qaIssueId : Option String := none
  dataId : Option String := none
  title : Option String := none
  iid : Option String := none
  url : Option String := none
  diffsUrl : Option String := none
  authorName : Option String := none
  status : Option String := none
  sourceBranchName : Option String := none
  targetBranchName : Option String := none
  isWip : Option String := none
  deriving DecidableEq

/-- An injected `.project-ref-path` element: the branch link rendered
inside the info block. -/
structure BranchInfo where
  branchName : String
  href : String
  deriving DecidableEq

/-- A rendered `.merge-request` list item.  `refText` is the text
content of its `.issuable-reference` child (empty when absent, which
makes every `includes` test fail exactly as the JS null guard does);
`hasMainInfo` records whether `.issuable-main-info` exists;
`branchInfoNodes` are the `.project-ref-path` elements below it. -/
structure MrNode where
  refText : String
  hasMainInfo : Bool
  branchInfoNodes : List BranchInfo
  dataset : Dataset
  deriving DecidableEq

structure Preferences where
  display_source_and_target_branches : Bool
  deriving DecidableEq

/-- Reconciler working state: the rendered node list (document order)
plus `console.error` entries. -/
structure UpdateState where
  nodes : List MrNode
  errorLog : List String
  deriving DecidableEq

/-- Index of the first element satisfying `p` (models
`document.querySelector` over the node list in document order). -/
def firstIdxWhere (p : α → Bool) : List α → Option Nat
  | [] => none
  | a :: rest => if p a then some 0 else (firstIdxWhere p rest).map (· + 1)

/-- Replaces the element at index `i` via `f` (in-place DOM mutation of
one node). -/
def listModify (f : α → α) : Nat → List α → List α
  | _, [] => []
  | 0, a :: rest => f a :: rest
  | i + 1, a :: rest => a :: listModify f i rest

/-- The cascading matcher of `updateMergeRequestsNodes` (lines
584-678): three attribute selectors, then the manual scan comparing
`referenceEl.textContent.includes("!" + iid)`, then the bare
`.merge-request` selector, which yields the first rendered node. -/
def findMergeRequestNode (nodes : List MrNode) (mr : MergeRequest) : Option Nat :=
  match firstIdxWhere (fun n => n.dataset.qaIssueId == some (toString mr.id)) nodes with
  | some i => some i
  | none =>
    match firstIdxWhere (fun n => n.dataset.dataId == some (toString mr.id)) nodes with
    | some i => some i
    | none =>
      match firstIdxWhere (fun n => n.dataset.iid == some (toString mr.iid)) nodes with
      | some i => some i
      | none =>
        match firstIdxWhere (fun n => jsIncludes n.refText ("!" ++ toString mr.iid)) nodes with
        | some i => some i
        | none => if nodes.isEmpty then none else some 0

/-- `setDataAttributesToMergeRequestNode` (lines 744-756). -/
def setDataAttributesToMergeRequestNode (n : MrNode) (mr : MergeRequest) : MrNode :=
  { n with dataset :=
      { n.dataset with
          title := some mr.title
          iid := some (toString mr.iid)
          url := some mr.web_url
          diffsUrl := some (mr.web_url ++ "/diffs")
          authorName := some mr.author.name
          status := some mr.state
          sourceBranchName := some mr.source_branch
          targetBranchName := some mr.target_branch
          isWip := some (toString mr.work_in_progress) } }

/-- The injected line: a `.project-ref-path` span holding the source
branch name as a link (lines 696-710). -/
def branchInfoLine (baseProjectUrl : String) (mr : MergeRequest) : BranchInfo :=
  { branchName := mr.source_branch
    href := baseProjectUrl ++ "/-/commits/" ++ mr.source_branch }

def noNodeMessage (mr : MergeRequest) : String :=
  "Could not find MR node for IID: " ++ toString mr.iid ++
    " or ID: " ++ toString mr.id

def mainInfoMissingMessage (mr : MergeRequest) : String :=
  "Could not find .issuable-main-info element for MR " ++ toString mr.iid

/-- Body of the `mergeRequests.forEach` loop in
`updateMergeRequestsNodes` (lines 574-738): locate the node, annotate
it, and, when branch display is enabled, append the info block into
`.issuable-main-info` (or log when that region is missing). -/
def processMergeRequest (preferences : Preferences) (baseProjectUrl : String)
    (s : UpdateState) (mr : MergeRequest) : UpdateState :=
  match findMergeRequestNode s.nodes mr with
  | none => { s with errorLog := s.errorLog ++ [noNodeMessage mr] }
  | some i =>
    let nodes1 := listModify (fun n => setDataAttributesToMergeRequestNode n mr) i s.nodes
    if preferences.display_source_and_target_branches then
      match nodes1.get? i with
      | some n =>
        if n.hasMainInfo then
          { nodes := listModify
              (fun m => { m with branchInfoNodes :=
                  m.branchInfoNodes ++ [branchInfoLine baseProjectUrl mr] })
              i nodes1
            errorLog := s.errorLog }
        else
          { nodes := nodes1, errorLog := s.errorLog ++ [mainInfoMissingMessage mr] }
      | none => { nodes := nodes1, errorLog := s.errorLog }
    else
      { nodes := nodes1, errorLog := s.errorLog }

/-- `updateMergeRequestsNodes` (lines 567-739). -/
def updateMergeRequestsNodes (preferences : Preferences) (baseProjectUrl : String)
    (s : UpdateState) (mergeRequests : List MergeRequest) : UpdateState :=
  mergeRequests.foldl (processMergeRequest preferences baseProjectUrl) s

/-- `removeExistingTargetBranchNodes` (lines 517-523): strips every
`.project-ref-path` under the listed `.merge-request` nodes. -/
def removeExistingTargetBranchNodes (nodes : List MrNode) : List MrNode :=
  nodes.map (fun n => { n with branchInfoNodes := [] })

/-- Success continuation of `fetchMergeRequestsDetailsThenUpdateUI`
(lines 490-505): clear pre-existing branch nodes when the preference is
on, then reconcile the fetched batch. -/
def fetchMergeRequestsDetailsThenUpdateUI (preferences : Preferences)
    (baseProjectUrl : String) (s : UpdateState)
    (mergeRequests : List MergeRequest) : UpdateState :=
  let s1 := if preferences.display_source_and_target_branches then
      { s with nodes := removeExistingTargetBranchNodes s.nodes }
    else s
  updateMergeRequestsNodes preferences baseProjectUrl s1 mergeRequests

/-- The node index each record of a batch lands on, in processing
order, threading the same state the fold mutates. -/
def runLandings (preferences : Preferences) (baseProjectUrl : String) :
    UpdateState → List MergeRequest → List (Option Nat)
  | _, [] => []
  | s, mr :: rest =>
    findMergeRequestNode s.nodes mr ::
      runLandings preferences baseProjectUrl
        (processMergeRequest preferences baseProjectUrl s mr) rest

/-- Number of `.project-ref-path` elements below the `i`-th node. -/
def countBranchNodes (nodes : List MrNode) (i : Nat) : Nat :=
  match nodes.get? i with
  | some n => n.branchInfoNodes.length
  | none => 0

/- ## Readiness Poller (`waitForMergeRequestsAndProcess`, lines 342-401) -/

/-- Live document at one instant: the element (reference-text) lists
each structural selector of the fixed cascade would return. -/
structure DocState where
  bySelector : List (List String)
  deriving DecidableEq

/-- The selector loop: first selector yielding elements wins; if all
come back empty the working list stays empty. -/
def findMrElements (d : DocState) : List String :=
  match d.bySelector.find? (fun els => !els.isEmpty) with
  | some els => els
  | none => []

def maxAttempts : Nat := 10

/-- Observable outcome of the polling loop. -/
structure PollOutcome where
  foundAttempt : Option Nat
  extractedIds : List String
  fetchIssued : Bool
  diagnostics : List String
  attemptsMade : Nat
  delaysMs : List Nat
  deriving DecidableEq

def exhaustedOutcome (a : Nat) : PollOutcome :=
  { foundAttempt := none
    extractedIds := []
    fetchIssued := false
    diagnostics := ["Could not find merge requests after " ++
      toString maxAttempts ++ " attempts"]
    attemptsMade := a
    delaysMs := [] }

def foundOutcome (a : Nat) (els : List String) : PollOutcome :=
  { foundAttempt := some a
    extractedIds := els.map extractMergeRequestId
    fetchIssued := true
    diagnostics := []
    attemptsMade := a
    delaysMs := [] }

/-- `checkForMergeRequests` (lines 350-398).  `doc k` is the document
when attempt `k` runs; fuel is `maxAttempts - attempts - 1`, making the
JS guard `attempts < maxAttempts` structural: fuel `0` means this is
attempt `maxAttempts` and an empty result is terminal. -/
def checkForMergeRequests (doc : Nat → DocState) : Nat → Nat → PollOutcome
  | 0, attempts =>
    let a := attempts + 1
    let els := findMrElements (doc a)
    if els.isEmpty then exhaustedOutcome a else foundOutcome a els
  | fuel + 1, attempts =>
    let a := attempts + 1
    let els := findMrElements (doc a)
    if els.isEmpty then
      let rest := checkForMergeRequests doc fuel a
      { rest with delaysMs := 1000 :: rest.delaysMs }
    else foundOutcome a els

/-- `waitForMergeRequestsAndProcess` (lines 342-401): starts the loop
with zero attempts made. -/
def waitForMergeRequestsAndProcess (doc : Nat → DocState) : PollOutcome :=
  checkForMergeRequests doc (maxAttempts - 1) 0

/- ## WIP toggle (`toggleMergeRequestWipStatus`, lines 877-910) -/

/-- Settled outcome of the update promise. -/
inductive WriteResponse where
  | resolved (responseData : MergeRequest)
  | rejected
  deriving DecidableEq

/-- The node state the toggle reads and writes: its dataset and the
visible `.merge-request-title-text a` text. -/
structure ToggleNodeState where
  dataset : Dataset
  visibleTitle : String
  deriving DecidableEq

/-- Observable result of one toggle invocation.  `buttonDisabled` is
the control's final state; `disabledDuringCall` records the first
statement `toggleButton.disabled = true`; `threw` marks a synchronous
TypeError (missing annotated title, or `.then` called on the
`undefined` returned by `sendRequest` when the CSRF token is absent);
`requestedTitle` is the title handed to `updateProjectMergeRequest`. -/
structure ToggleResult where
  node : ToggleNodeState
  buttonDisabled : Bool
  disabledDuringCall : Bool
  threw : Bool
  requestedTitle : Option String
  deriving DecidableEq

/-- Line 880: `mergeRequestNode.dataset.isWip == "true"`. -/
def wipFlag (ds : Dataset) : Bool := ds.isWip == some "true"

/-- Whether the title starts with the fixed `WIP:` marker (the anchored
regex `^WIP:`). -/
def hasWipMarker (s : String) : Bool :=
  startsWithChars s.data ['W', 'I', 'P', ':']

/-- JS `title.replace(new RegExp("^WIP:"), "")`: drops the four marker
characters when the title starts with them, otherwise leaves the title
unchanged. -/
def stripWipMarker (s : String) : String :=
  if hasWipMarker s then ⟨s.data.drop 4⟩ else s

/-- `toggleMergeRequestWipStatus` (lines 877-910), with the remote
modelled as a function from the sent title to the settled promise.  The
button is disabled first; on success the dataset wip flag and title and
the visible title are overwritten from the response; `.finally`
re-enables the button whenever a promise existed to chain on. -/
def toggleMergeRequestWipStatus (csrfToken : Option String)
    (remote : String → WriteResponse) (st : ToggleNodeState) : ToggleResult :=
  match st.dataset.title with
  | none =>
    { node := st, buttonDisabled := true, disabledDuringCall := true
      threw := true, requestedTitle := none }
  | some title =>
    let isWip := wipFlag st.dataset
    let newTitle := if isWip then jsTrim (stripWipMarker title)
      else "WIP: " ++ jsTrim title
    match csrfToken with
    | none =>
      { node := st, buttonDisabled := true, disabledDuringCall := true
        threw := true, requestedTitle := some newTitle }
    | some _ =>
      match remote newTitle with
      | WriteResponse.resolved responseData =>
        { node :=
            { dataset :=
                { st.dataset with
                    isWip := some (toString responseData.work_in_progress)
                    title := some responseData.title }
              visibleTitle := responseData.title }
          buttonDisabled := false
          disabledDuringCall := true
          threw := false
          requestedTitle := some newTitle }
      | WriteResponse.rejected =>
        { node := st, buttonDisabled := false, disabledDuringCall := true
          threw := false, requestedTitle := some newTitle }

/-- The title shape after a strip-then-prepend (or prepend-then-strip)
marker round trip: spacing around the marker is normalised by the
`trim()` calls.  Used to state involution "modulo a single marker
round-trip". -/
def wipMarkerRoundTrip (t : String) : String :=
  if hasWipMarker t then "WIP: " ++ jsTrim (stripWipMarker t) else jsTrim t

/-- Consistency of an annotated item: the stored wip flag reflects a
single leading `WIP:` marker of the stored title. -/
def wipConsistent (ds : Dataset) (t : String) : Prop :=
  ds.title = some t ∧
    ((ds.isWip = some "true" ∧ hasWipMarker t = true ∧
        hasWipMarker (jsTrim (stripWipMarker t)) = false) ∨
      (ds.isWip ≠ some "true" ∧ hasWipMarker (jsTrim t) = false))

/- ## Jira helpers (`findFirstJiraTicketId`, `createJiraTicketUrl`) -/

/-- Attempt of the regex `[A-Z]{1,10}-\d+` anchored at the current
position: the greedy letter run must be 1-10 long and be followed by a
hyphen and at least one digit; the digit run is taken greedily. -/
def tryTicketAt (cs : List Char) : Option (List Char) :=
  let letters := cs.takeWhile isUpperAZ
  if letters.length = 0 || 10 < letters.length then none
  else
    match cs.drop letters.length with
    | '-' :: rest =>
      let digits := rest.takeWhile isDigit09
      if digits.isEmpty then none else some (letters ++ '-' :: digits)
    | _ => none

/-- Leftmost match of the regex: try each start position left to
right. -/
def execTicketChars : List Char → Option (List Char)
  | [] => none
  | c :: rest =>
    match tryTicketAt (c :: rest) with
    | some m => some m
    | none => execTicketChars rest

/-- `jiraTicketIdRegex.exec(s)` restricted to the matched text. -/
def execJiraTicketIdRegex (s : String) : Option String :=
  (execTicketChars s.data).map (fun cs => ⟨cs⟩)

/-- `findFirstJiraTicketId` (lines 762-780): source branch first, then
the title; `none` models the `null` return. -/
def findFirstJiraTicketId (mr : MergeRequest) : Option String :=
  match execJiraTicketIdRegex mr.source_branch with
  | some results => some results
  | none => execJiraTicketIdRegex mr.title

/-- Declarative reading of the ticket pattern at the head of `cs`:
1-10 uppercase letters, a hyphen, one or more digits. -/
def ticketSplit (cs : List Char) : Prop :=
  ∃ letters digits rest, cs = letters ++ '-' :: (digits ++ rest) ∧
    letters ≠ [] ∧ letters.length ≤ 10 ∧
    (∀ c ∈ letters, isUpperAZ c = true) ∧
    digits ≠ [] ∧ (∀ c ∈ digits, isDigit09 c = true)

/-- The string contains the ticket pattern somewhere. -/
def hasTicketPattern (s : String) : Prop :=
  ∃ pre suf, s.data = pre ++ suf ∧ ticketSplit suf

/-- Component view of a WHATWG `URL` object as the script uses it:
scheme, host and path (`new URL(...)` parsing itself is the browser's
and stays external). -/
structure JsUrl where
  protocol : String
  host : String
  pathname : String
  deriving DecidableEq

def urlToString (u : JsUrl) : String := u.protocol ++ "//" ++ u.host ++ u.pathname

/-- `createJiraTicketUrl` (lines 786-796): guarantee a trailing slash
on the path, then append `browse/<ticket-id>`. -/
def createJiraTicketUrl (baseJiraUrl : JsUrl) (jiraTicketId : String) : JsUrl :=
  let u := if jsEndsWith baseJiraUrl.pathname "/" then baseJiraUrl
    else { baseJiraUrl with pathname := baseJiraUrl.pathname ++ "/" }
  { u with pathname := u.pathname ++ "browse/" ++ jiraTicketId }

/- ## Helper lemmas -/

theorem data_append (s t : String) : (s ++ t).data = s.data ++ t.data := rfl

theorem slash_data : ("/" : String).data = ['/'] := rfl

theorem jsEndsWith_append_slash (s : String) : jsEndsWith (s ++ "/") "/" = true := by
  have h : (s ++ "/").data = s.data ++ ['/'] := rfl
  simp [jsEndsWith, h, slash_data, startsWithChars]

/- ## Claim C4 -/

/-- Claim C4: a write (`updateProjectMergeRequest`, hence a PUT through
`sendRequest`) attempted without a CSRF token fails on the early-return
path — the `AuthError` outcome: no promise and no fetch are produced
(`issuedFetch = none`) and the diagnostic is logged. -/
theorem claim4_update_without_csrf_fails_without_network
    (baseUrl projectId mergeRequestId : String)
    (data : List (String × JsonValue)) :
    updateProjectMergeRequest baseUrl none projectId mergeRequestId data =
      { issuedFetch := none, errorLog := [csrfErrorMessage] } := rfl

/-- Concrete instance of claim C4's theorem. -/
theorem claim4_witness :
    updateProjectMergeRequest "https://gitlab.example/api/v4/" none "1" "2"
        [("title", JsonValue.jstr "t")] =
      { issuedFetch := none, errorLog := [csrfErrorMessage] } :=
  claim4_update_without_csrf_fails_without_network
    "https://gitlab.example/api/v4/" "1" "2" [("title", JsonValue.jstr "t")]

/- ## Claim C9 -/

/-- Claim C9: the constructed Jira ticket URL keeps the base URL's
scheme and host unchanged, and its path is the base path — with a
trailing slash guaranteed — followed by `browse/<ticket-id>`. -/
theorem claim9_jira_ticket_url_shape (baseJiraUrl : JsUrl) (jiraTicketId : String) :
    (createJiraTicketUrl baseJiraUrl jiraTicketId).protocol = baseJiraUrl.protocol ∧
    (createJiraTicketUrl baseJiraUrl jiraTicketId).host = baseJiraUrl.host ∧
    (createJiraTicketUrl baseJiraUrl jiraTicketId).pathname =
      (if jsEndsWith baseJiraUrl.pathname "/" then baseJiraUrl.pathname
        else baseJiraUrl.pathname ++ "/") ++ "browse/" ++ jiraTicketId ∧
    jsEndsWith (if jsEndsWith baseJiraUrl.pathname "/" then baseJiraUrl.pathname
      else baseJiraUrl.pathname ++ "/") "/" = true ∧
    urlToString (createJiraTicketUrl baseJiraUrl jiraTicketId) =
      baseJiraUrl.protocol ++ "//" ++ baseJiraUrl.host ++
        ((if jsEndsWith baseJiraUrl.pathname "/" then baseJiraUrl.pathname
          else baseJiraUrl.pathname ++ "/") ++ "browse/" ++ jiraTicketId) := by
  by_cases h : jsEndsWith baseJiraUrl.pathname "/" = true
  · simp [createJiraTicketUrl, urlToString, h]
  · simp only [Bool.not_eq_true] at h
    simp [createJiraTicketUrl, urlToString, h, jsEndsWith_append_slash]

/- ## Claim C10 -/

/-- Claim C10: the toggle decides the current wip state by comparing
the stored `data-is-wip` string against exactly `"true"`; any other
stored value (absent, `"false"`, `"True"`, ...) takes the
not-work-in-progress branch, so the title sent to the API is
`"WIP: " ++ trimmed title` (prepend, not strip). -/
theorem claim10_wip_flag_compared_to_literal_true (csrfToken : Option String)
    (remote : String → WriteResponse) (st : ToggleNodeState) (t : String)
    (ht : st.dataset.title = some t) (hw : st.dataset.isWip ≠ some "true") :
    (toggleMergeRequestWipStatus csrfToken remote st).requestedTitle =
      some ("WIP: " ++ jsTrim t) := by
  have hflag : wipFlag st.dataset = false := beq_eq_false_iff_ne.mpr hw
  cases csrfToken with
  | none => simp [toggleMergeRequestWipStatus, ht, hflag]
  | some tok =>
    cases hr : remote ("WIP: " ++ jsTrim t) with
    | resolved rd => simp [toggleMergeRequestWipStatus, ht, hflag, hr]
    | rejected => simp [toggleMergeRequestWipStatus, ht, hflag, hr]

/-- Concrete instance of claim C10's theorem: stored wip value `"True"`
(capitalised, hence not equal to `"true"`) leads to prepending. -/
theorem claim10_witness :
    (toggleMergeRequestWipStatus none (fun _ => WriteResponse.rejected)
      { dataset := { title := some "fix", isWip := some "True" },
        visibleTitle := "fix" }).requestedTitle = some "WIP: fix" :=
  (claim10_wip_flag_compared_to_literal_true none (fun _ => WriteResponse.rejected)
    { dataset := { title := some "fix", isWip := some "True" }, visibleTitle := "fix" }
    "fix" rfl (by decide)).trans (by decide)

/- ## Claim C7 -/

/-- Claim C7 (amended): when a CSRF token is present and the item has
an annotated title, the triggering control is disabled at the start and
re-enabled whether the write resolves or rejects, and on the rejected
path neither the AnnotatedState nor the visible title is mutated.  (The
original claim fails when the CSRF token is absent, see the
counterexample: `sendRequest` returns no promise, `.then` throws, and
the control stays disabled.) -/
theorem claim7_toggle_reenables_button (tok : String)
    (remote : String → WriteResponse) (st : ToggleNodeState) (t : String)
    (ht : st.dataset.title = some t) :
    (toggleMergeRequestWipStatus (some tok) remote st).disabledDuringCall = true ∧
    (toggleMergeRequestWipStatus (some tok) remote st).buttonDisabled = false ∧
    (remote (if wipFlag st.dataset then jsTrim (stripWipMarker t)
        else "WIP: " ++ jsTrim t) = WriteResponse.rejected →
      (toggleMergeRequestWipStatus (some tok) remote st).node = st) := by
  cases hr : remote (if wipFlag st.dataset then jsTrim (stripWipMarker t)
      else "WIP: " ++ jsTrim t) with
  | resolved rd =>
    refine ⟨?_, ?_, ?_⟩ <;> simp [toggleMergeRequestWipStatus, ht, hr]
  | rejected =>
    refine ⟨?_, ?_, ?_⟩ <;> simp [toggleMergeRequestWipStatus, ht, hr]

/-- Counterexample to claim C7 as stated: an invocation with no CSRF
token present never re-enables the control (and throws), because
`sendRequest` returned `undefined` instead of a promise. -/
theorem claim7_counterexample :
    (toggleMergeRequestWipStatus none (fun _ => WriteResponse.rejected)
      { dataset := { title := some "x", isWip := some "false" },
        visibleTitle := "x" }).buttonDisabled = true ∧
    (toggleMergeRequestWipStatus none (fun _ => WriteResponse.rejected)
      { dataset := { title := some "x", isWip := some "false" },
        visibleTitle := "x" }).threw = true := by
  constructor <;> decide

/-- Concrete instance of claim C7's amended theorem. -/
theorem claim7_witness :
    (toggleMergeRequestWipStatus (some "tok") (fun _ => WriteResponse.rejected)
      { dataset := { title := some "x", isWip := some "false" },
        visibleTitle := "x" }).buttonDisabled = false ∧
    (toggleMergeRequestWipStatus (some "tok") (fun _ => WriteResponse.rejected)
      { dataset := { title := some "x", isWip := some "false" },
        visibleTitle := "x" }).node =
      { dataset := { title := some "x", isWip := some "false" },
        visibleTitle := "x" } :=
  ⟨(claim7_toggle_reenables_button "tok" (fun _ => WriteResponse.rejected)
      { dataset := { title := some "x", isWip := some "false" }, visibleTitle := "x" }
      "x" rfl).2.1,
    (claim7_toggle_reenables_button "tok" (fun _ => WriteResponse.rejected)
      { dataset := { title := some "x", isWip := some "false" }, visibleTitle := "x" }
      "x" rfl).2.2 rfl⟩

/- ## Claim C8 -/

theorem mem_takeWhile_pred (p : α → Bool) :
    ∀ l : List α, ∀ c ∈ l.takeWhile p, p c = true := by
  intro l
  induction l with
  | nil => intro c hc; simp [List.takeWhile] at hc
  | cons a t ih =>
    intro c hc
    rw [List.takeWhile_cons] at hc
    by_cases hp : p a = true
    · rw [if_pos hp] at hc
      rcases List.mem_cons.mp hc with hc | hc
      · rwa [hc]
      · exact ih c hc
    · rw [if_neg hp] at hc
      simp at hc

theorem takeWhile_all_append (p : α → Bool) (d : α) (hd : p d = false) :
    ∀ (a b : List α), (∀ c ∈ a, p c = true) → (a ++ d :: b).takeWhile p = a := by
  intro a
  induction a with
  | nil => intro b _; simp [List.takeWhile_cons, hd]
  | cons x a ih =>
    intro b ha
    have hx : p x = true := ha x (by simp)
    simp only [List.cons_append, List.takeWhile_cons, hx, if_pos]
    rw [ih b (fun c hc => ha c (by simp [hc]))]

theorem takeWhile_append_drop_self (p : α → Bool) :
    ∀ l : List α, l.takeWhile p ++ l.drop (l.takeWhile p).length = l := by
  intro l
  induction l with
  | nil => rfl
  | cons a t ih =>
    by_cases hp : p a = true
    · simp only [List.takeWhile_cons, if_pos hp, List.length_cons,
        List.drop_succ_cons, List.cons_append, ih]
    · simp [List.takeWhile_cons, if_neg hp]

theorem not_ticketSplit_nil : ¬ ticketSplit [] := by
  rintro ⟨letters, digits, rest, hcs, hne, -, -, -, -⟩
  rcases List.append_eq_nil.mp hcs.symm with ⟨h1, h2⟩
  exact List.cons_ne_nil _ _ h2

theorem tryTicketAt_some_imp {cs m : List Char}
    (h : tryTicketAt cs = some m) : ticketSplit cs := by
  simp only [tryTicketAt] at h
  split at h
  · exact Option.noConfusion h
  · rename_i hg
    simp only [Bool.or_eq_true, decide_eq_true_eq, not_or] at hg
    obtain ⟨hg1, hg2⟩ := hg
    split at h
    · rename_i rest heq
      split at h
      · exact Option.noConfusion h
      · rename_i hde
        refine ⟨cs.takeWhile isUpperAZ, rest.takeWhile isDigit09,
          rest.drop (rest.takeWhile isDigit09).length, ?_, ?_,
          Nat.le_of_not_lt hg2, mem_takeWhile_pred isUpperAZ cs, ?_,
          mem_takeWhile_pred isDigit09 rest⟩
        · conv_lhs => rw [← takeWhile_append_drop_self isUpperAZ cs]
          rw [heq]
          congr 2
          exact (takeWhile_append_drop_self isDigit09 rest).symm
        · intro hnil
          exact hg1 (by rw [hnil]; rfl)
        · intro hnil
          rw [hnil] at hde
          exact hde rfl
    · exact Option.noConfusion h

theorem ticketSplit_imp_tryTicketAt {cs : List Char}
    (h : ticketSplit cs) : ∃ m, tryTicketAt cs = some m := by
  obtain ⟨letters, digits, rest, hcs, hne, hlen, hup, hdne, hdig⟩ := h
  have hdash : isUpperAZ '-' = false := by decide
  have htw : cs.takeWhile isUpperAZ = letters := by
    rw [hcs]; exact takeWhile_all_append isUpperAZ '-' hdash letters _ hup
  have hlen0 : letters.length ≠ 0 := fun h0 => hne (List.length_eq_zero.mp h0)
  have hdropcs : cs.drop letters.length = '-' :: (digits ++ rest) := by
    rw [hcs]
    have := List.drop_left letters ('-' :: (digits ++ rest))
    exact this
  refine ⟨letters ++ '-' :: (digits ++ rest).takeWhile isDigit09, ?_⟩
  unfold tryTicketAt
  rw [htw, if_neg (by simp [hlen0, Nat.not_lt.mpr hlen]), hdropcs]
  rcases digits with _ | ⟨d, ds⟩
  · exact absurd rfl hdne
  · have hd : isDigit09 d = true := hdig d (by simp)
    simp only [List.cons_append, List.takeWhile_cons, hd, if_pos]
    rfl

theorem execTicketChars_eq_none_iff :
    ∀ cs : List Char, execTicketChars cs = none ↔
      ∀ pre suf, cs = pre ++ suf → ¬ ticketSplit suf := by
  intro cs
  induction cs with
  | nil =>
    constructor
    · intro _ pre suf heq hs
      rcases List.append_eq_nil.mp heq.symm with ⟨h1, h2⟩
      rw [h2] at hs
      exact not_ticketSplit_nil hs
    · intro _; rfl
  | cons c rest ih =>
    constructor
    · intro h pre suf heq hs
      rcases htry : tryTicketAt (c :: rest) with _ | m
      · rcases pre with _ | ⟨p, pre'⟩
        · simp only [List.nil_append] at heq
          rw [← heq] at hs
          obtain ⟨m, hm⟩ := ticketSplit_imp_tryTicketAt hs
          rw [hm] at htry
          exact Option.noConfusion htry
        · have hrest : rest = pre' ++ suf := by
            injection heq with h1 h2
          have hnone : execTicketChars rest = none := by
            unfold execTicketChars at h
            rw [htry] at h
            exact h
          exact (ih.mp hnone) pre' suf hrest hs
      · unfold execTicketChars at h
        rw [htry] at h
        exact Option.noConfusion h
    · intro h
      have htry : tryTicketAt (c :: rest) = none := by
        rcases htry : tryTicketAt (c :: rest) with _ | m
        · rfl
        · exact absurd (tryTicketAt_some_imp htry) (h [] (c :: rest) rfl)
      unfold execTicketChars
      rw [htry]
      exact ih.mpr (fun pre suf heq hs =>
        h (c :: pre) suf (by rw [heq]; rfl) hs)

/-- Claim C8: `findFirstJiraTicketId` returns the regex match from the
source branch name in preference to one from the title whenever the
branch contains the pattern (1-10 uppercase letters, a hyphen, one or
more digits), and returns the empty result (`null`, here `none`) when
neither the branch nor the title contains the pattern. -/
theorem claim8_ticket_id_prefers_branch_then_title (mr : MergeRequest) :
    (hasTicketPattern mr.source_branch →
      findFirstJiraTicketId mr = execJiraTicketIdRegex mr.source_branch ∧
        execJiraTicketIdRegex mr.source_branch ≠ none) ∧
    (¬ hasTicketPattern mr.source_branch → ¬ hasTicketPattern mr.title →
      findFirstJiraTicketId mr = none) := by
  constructor
  · intro hp
    have hne : execTicketChars mr.source_branch.data ≠ none := by
      intro h0
      obtain ⟨pre, suf, heq, hs⟩ := hp
      exact (execTicketChars_eq_none_iff mr.source_branch.data).mp h0 pre suf heq hs
    rcases hex : execTicketChars mr.source_branch.data with _ | m
    · exact absurd hex hne
    · constructor
      · unfold findFirstJiraTicketId execJiraTicketIdRegex
        rw [hex]
        rfl
      · unfold execJiraTicketIdRegex
        rw [hex]
        exact Option.noConfusion
  · intro h1 h2
    have hb : execTicketChars mr.source_branch.data = none :=
      (execTicketChars_eq_none_iff _).mpr
        (fun pre suf heq hs => h1 ⟨pre, suf, heq, hs⟩)
    have ht : execTicketChars mr.title.data = none :=
      (execTicketChars_eq_none_iff _).mpr
        (fun pre suf heq hs => h2 ⟨pre, suf, heq, hs⟩)
    unfold findFirstJiraTicketId execJiraTicketIdRegex
    rw [hb, ht]
    rfl

/-- Concrete instance of claim C8's theorem: the branch
`"PROJ-42-fix"` wins over any title, and the match is `"PROJ-42"`. -/
theorem claim8_witness :
    findFirstJiraTicketId
      { id := 1, iid := 1, title := "OTHER-7 t", web_url := "", author := { name := "" },
        state := "opened", source_branch := "PROJ-42-fix", target_branch := "main",
        work_in_progress := false } = some "PROJ-42" := by
  have hpat : hasTicketPattern "PROJ-42-fix" := by
    refine ⟨[], "PROJ-42-fix".data, rfl,
      ['P', 'R', 'O', 'J'], ['4', '2'], ['-', 'f', 'i', 'x'], ?_, ?_, ?_, ?_, ?_, ?_⟩
    · decide
    · decide
    · decide
    · decide
    · decide
    · decide
  have h := (claim8_ticket_id_prefers_branch_then_title
    { id := 1, iid := 1, title := "OTHER-7 t", web_url := "", author := { name := "" },
      state := "opened", source_branch := "PROJ-42-fix", target_branch := "main",
      work_in_progress := false }).1 hpat
  exact h.1.trans (by decide)

/- ## Reconciler lemmas -/

theorem firstIdxWhere_eq_none (p : α → Bool) :
    ∀ l : List α, (∀ a ∈ l, p a = false) → firstIdxWhere p l = none := by
  intro l
  induction l with
  | nil => intro _; rfl
  | cons a t ih =>
    intro h
    have ha := h a (by simp)
    simp [firstIdxWhere, ha, ih (fun b hb => h b (by simp [hb]))]

theorem firstIdxWhere_eq_some (p : α → Bool) :
    ∀ (l : List α) (i : Nat) (a : α), l.get? i = some a → p a = true →
      (∀ j b, j < i → l.get? j = some b → p b = false) →
      firstIdxWhere p l = some i := by
  intro l
  induction l with
  | nil => intro i a hg _ _; simp at hg
  | cons x t ih =>
    intro i a hg hp hprev
    cases i with
    | zero =>
      rw [List.get?_cons_zero] at hg
      injection hg with hg
      subst hg
      simp [firstIdxWhere, hp]
    | succ i' =>
      have hx : p x = false := hprev 0 x (Nat.succ_pos _) rfl
      rw [List.get?_cons_succ] at hg
      have hrec := ih i' a hg hp
        (fun j b hj hb => hprev (j + 1) b (Nat.succ_lt_succ hj) (by simpa using hb))
      simp [firstIdxWhere, hx, hrec]

theorem get?_listModify_self (f : α → α) :
    ∀ (l : List α) (i : Nat), (listModify f i l).get? i = (l.get? i).map f := by
  intro l
  induction l with
  | nil => intro i; cases i <;> rfl
  | cons a t ih =>
    intro i
    cases i with
    | zero => rfl
    | succ j => simpa [listModify] using ih j

theorem get?_listModify_ne (f : α → α) :
    ∀ (l : List α) (i j : Nat), i ≠ j → (listModify f j l).get? i = l.get? i := by
  intro l
  induction l with
  | nil => intro i j _; cases j <;> rfl
  | cons a t ih =>
    intro i j hne
    cases j with
    | zero =>
      cases i with
      | zero => exact absurd rfl hne
      | succ k => rfl
    | succ j' =>
      cases i with
      | zero => rfl
      | succ k => simpa [listModify] using ih k j' (fun h => hne (by rw [h]))

/-- When no attribute selector matches, the node found for a record is
the first one whose reference text contains `"!" ++ iid`. -/
theorem findMergeRequestNode_scan (nodes : List MrNode) (mr : MergeRequest)
    (hattr : ∀ n ∈ nodes, n.dataset.qaIssueId ≠ some (toString mr.id) ∧
      n.dataset.dataId ≠ some (toString mr.id) ∧
      n.dataset.iid ≠ some (toString mr.iid))
    (i : Nat) (n : MrNode) (hget : nodes.get? i = some n)
    (hhit : jsIncludes n.refText ("!" ++ toString mr.iid) = true)
    (hprev : ∀ j b, j < i → nodes.get? j = some b →
      jsIncludes b.refText ("!" ++ toString mr.iid) = false) :
    findMergeRequestNode nodes mr = some i := by
  have h1 := firstIdxWhere_eq_none
    (fun n => n.dataset.qaIssueId == some (toString mr.id)) nodes
    (fun a ha => beq_eq_false_iff_ne.mpr (hattr a ha).1)
  have h2 := firstIdxWhere_eq_none
    (fun n => n.dataset.dataId == some (toString mr.id)) nodes
    (fun a ha => beq_eq_false_iff_ne.mpr (hattr a ha).2.1)
  have h3 := firstIdxWhere_eq_none
    (fun n => n.dataset.iid == some (toString mr.iid)) nodes
    (fun a ha => beq_eq_false_iff_ne.mpr (hattr a ha).2.2)
  have h4 := firstIdxWhere_eq_some
    (fun n => jsIncludes n.refText ("!" ++ toString mr.iid)) nodes i n hget hhit hprev
  simp only [findMergeRequestNode, h1, h2, h3, h4]

theorem get?_map_dataset_listModify (g : MrNode → MrNode)
    (hg : ∀ x, (g x).dataset = x.dataset) (i : Nat) (l : List MrNode) :
    ((listModify g i l).get? i).map (fun m => m.dataset) =
      (l.get? i).map (fun m => m.dataset) := by
  rw [get?_listModify_self]
  rcases l.get? i with _ | n
  · rfl
  · simp [hg]

/-- Once the matcher has picked index `i`, the node there ends up with
the dataset written by `setDataAttributesToMergeRequestNode`,
independently of the branch-injection branches. -/
theorem process_found_dataset (preferences : Preferences) (baseProjectUrl : String)
    (s : UpdateState) (mr : MergeRequest) (i : Nat)
    (hfind : findMergeRequestNode s.nodes mr = some i) :
    ((processMergeRequest preferences baseProjectUrl s mr).nodes.get? i).map
        (fun m => m.dataset) =
      (s.nodes.get? i).map
        (fun m => (setDataAttributesToMergeRequestNode m mr).dataset) := by
  have hbase : ((listModify (fun n => setDataAttributesToMergeRequestNode n mr)
        i s.nodes).get? i).map (fun m => m.dataset) =
      (s.nodes.get? i).map
        (fun m => (setDataAttributesToMergeRequestNode m mr).dataset) := by
    rw [get?_listModify_self]
    rcases s.nodes.get? i with _ | n <;> rfl
  simp only [processMergeRequest, hfind]
  split
  · split
    · split
      · exact Eq.trans
          (get?_map_dataset_listModify
            (fun m => { m with branchInfoNodes :=
              m.branchInfoNodes ++ [branchInfoLine baseProjectUrl mr] })
            (fun x => rfl) i _) hbase
      · exact hbase
    · exact hbase
  · exact hbase

/- ## Claim C1 -/

/-- Claim C1 (amended): the Reconciler's fallback scan matches by
substring containment of `"!" ++ iid` in the reference text, not by
token equality.  When no rendered item carries a conflicting
id/iid data attribute and exactly one item's reference text contains
the marker-prefixed sequence number, that item's AnnotatedState is
fully populated with the record's fields — title, iid, url, diffs url
(record url with `/diffs` appended), author name, status, source and
target branch names and wip flag — each as a total overwrite of any
previous value. -/
theorem claim1_unique_containment_match_fully_annotates
    (preferences : Preferences) (baseProjectUrl : String) (s : UpdateState)
    (mr : MergeRequest) (i : Nat) (n : MrNode)
    (hget : s.nodes.get? i = some n)
    (hattr : ∀ m ∈ s.nodes, m.dataset.qaIssueId ≠ some (toString mr.id) ∧
      m.dataset.dataId ≠ some (toString mr.id) ∧
      m.dataset.iid ≠ some (toString mr.iid))
    (hhit : jsIncludes n.refText ("!" ++ toString mr.iid) = true)
    (huniq : ∀ j b, j ≠ i → s.nodes.get? j = some b →
      jsIncludes b.refText ("!" ++ toString mr.iid) = false) :
    ((processMergeRequest preferences baseProjectUrl s mr).nodes.get? i).map
        (fun m => m.dataset) =
      some { n.dataset with
        title := some mr.title
        iid := some (toString mr.iid)
        url := some mr.web_url
        diffsUrl := some (mr.web_url ++ "/diffs")
        authorName := some mr.author.name
        status := some mr.state
        sourceBranchName := some mr.source_branch
        targetBranchName := some mr.target_branch
        isWip := some (toString mr.work_in_progress) } := by
  have hfind := findMergeRequestNode_scan s.nodes mr hattr i n hget hhit
    (fun j b hj hb => huniq j b (Nat.ne_of_lt hj) hb)
  rw [process_found_dataset preferences baseProjectUrl s mr i hfind, hget]
  rfl

/-- Counterexample to claim C1 as stated: with rendered reference texts
`"!12"` and `"!1"` and a record with iid `1`, the record's iid equals
the identity token of exactly the second item, yet the first item is
annotated (its text contains `"!1"` as a substring and the scan takes
the first hit in document order) and the second stays untouched. -/
theorem claim1_counterexample :
    extractMergeRequestId "!12" = "12" ∧
    extractMergeRequestId "!1" = "1" ∧
    toString (1 : Nat) = "1" ∧
    ((updateMergeRequestsNodes { display_source_and_target_branches := false } ""
        { nodes := [
            { refText := "!12", hasMainInfo := true, branchInfoNodes := [], dataset := {} },
            { refText := "!1", hasMainInfo := true, branchInfoNodes := [], dataset := {} }],
          errorLog := [] }
        [{ id := 100, iid := 1, title := "T", web_url := "u", author := { name := "A" },
           state := "opened", source_branch := "s", target_branch := "m",
           work_in_progress := false }]).nodes.get? 1).map
        (fun m => m.dataset.title) = some none ∧
    ((updateMergeRequestsNodes { display_source_and_target_branches := false } ""
        { nodes := [
            { refText := "!12", hasMainInfo := true, branchInfoNodes := [], dataset := {} },
            { refText := "!1", hasMainInfo := true, branchInfoNodes := [], dataset := {} }],
          errorLog := [] }
        [{ id := 100, iid := 1, title := "T", web_url := "u", author := { name := "A" },
           state := "opened", source_branch := "s", target_branch := "m",
           work_in_progress := false }]).nodes.get? 0).map
        (fun m => m.dataset.title) = some (some "T") := by
  refine ⟨rfl, rfl, rfl, ?_, ?_⟩ <;> decide

/-- Concrete instance of claim C1's amended theorem. -/
theorem claim1_witness :
    ((processMergeRequest { display_source_and_target_branches := true } "https://gl/p"
        { nodes :=
            [{ refText := "!7", hasMainInfo := true, branchInfoNodes := [], dataset := {} }],
          errorLog := [] }
        { id := 70, iid := 7, title := "T", web_url := "https://gl/p/-/merge_requests/7",
          author := { name := "A" }, state := "opened", source_branch := "feat",
          target_branch := "main", work_in_progress := false }).nodes.get? 0).map
        (fun m => m.dataset) =
      some { title := some "T", iid := some "7",
             url := some "https://gl/p/-/merge_requests/7",
             diffsUrl := some "https://gl/p/-/merge_requests/7/diffs",
             authorName := some "A", status := some "opened",
             sourceBranchName := some "feat", targetBranchName := some "main",
             isWip := some "false" } :=
  (claim1_unique_containment_match_fully_annotates
    { display_source_and_target_branches := true } "https://gl/p"
    { nodes :=
        [{ refText := "!7", hasMainInfo := true, branchInfoNodes := [], dataset := {} }],
      errorLog := [] }
    { id := 70, iid := 7, title := "T", web_url := "https://gl/p/-/merge_requests/7",
      author := { name := "A" }, state := "opened", source_branch := "feat",
      target_branch := "main", work_in_progress := false }
    0 { refText := "!7", hasMainInfo := true, branchInfoNodes := [], dataset := {} }
    rfl (by decide) (by decide)
    (fun j b hj hb => by
      cases j with
      | zero => exact absurd rfl hj
      | succ k => simp at hb)).trans (by decide)

/- ## Claim C6 -/

/-- Claim C6 (amended): a record that matches no rendered item under
the attribute matchers or the reference-text scan is not skipped while
any `.merge-request` node is rendered: the final bare `.merge-request`
selector annotates it onto the first node in document order, even
though that node's identity token does not correspond.  Only when no
node exists at all is the diagnostic naming both the sequence number
and the internal id logged and the record dropped.  In every case
processing of the remaining records of the batch continues
independently. -/
theorem claim6_unmatched_record_first_node_fallback
    (preferences : Preferences) (baseProjectUrl : String) (s : UpdateState)
    (mr : MergeRequest)
    (hnomatch : ∀ m ∈ s.nodes, m.dataset.qaIssueId ≠ some (toString mr.id) ∧
      m.dataset.dataId ≠ some (toString mr.id) ∧
      m.dataset.iid ≠ some (toString mr.iid) ∧
      jsIncludes m.refText ("!" ++ toString mr.iid) = false) :
    (s.nodes = [] →
      processMergeRequest preferences baseProjectUrl s mr =
        { s with errorLog := s.errorLog ++ [noNodeMessage mr] }) ∧
    (s.nodes ≠ [] →
      findMergeRequestNode s.nodes mr = some 0 ∧
      ((processMergeRequest preferences baseProjectUrl s mr).nodes.get? 0).map
          (fun m => m.dataset.iid) = some (some (toString mr.iid))) ∧
    (∀ rest, updateMergeRequestsNodes preferences baseProjectUrl s (mr :: rest) =
      updateMergeRequestsNodes preferences baseProjectUrl
        (processMergeRequest preferences baseProjectUrl s mr) rest) := by
  have h1 := firstIdxWhere_eq_none
    (fun n => n.dataset.qaIssueId == some (toString mr.id)) s.nodes
    (fun a ha => beq_eq_false_iff_ne.mpr (hnomatch a ha).1)
  have h2 := firstIdxWhere_eq_none
    (fun n => n.dataset.dataId == some (toString mr.id)) s.nodes
    (fun a ha => beq_eq_false_iff_ne.mpr (hnomatch a ha).2.1)
  have h3 := firstIdxWhere_eq_none
    (fun n => n.dataset.iid == some (toString mr.iid)) s.nodes
    (fun a ha => beq_eq_false_iff_ne.mpr (hnomatch a ha).2.2.1)
  have h4 := firstIdxWhere_eq_none
    (fun n => jsIncludes n.refText ("!" ++ toString mr.iid)) s.nodes
    (fun a ha => (hnomatch a ha).2.2.2)
  refine ⟨?_, ?_, fun rest => rfl⟩
  · intro hnil
    have hfind : findMergeRequestNode s.nodes mr = none := by
      simp only [findMergeRequestNode, h1, h2, h3, h4]
      rw [hnil]
      rfl
    simp only [processMergeRequest, hfind]
  · intro hne
    have hempty : s.nodes.isEmpty = false := by
      rcases hn : s.nodes with _ | ⟨a, t⟩
      · exact absurd hn hne
      · rfl
    have hfind : findMergeRequestNode s.nodes mr = some 0 := by
      simp only [findMergeRequestNode, h1, h2, h3, h4, hempty]
      rfl
    refine ⟨hfind, ?_⟩
    have hd := process_found_dataset preferences baseProjectUrl s mr 0 hfind
    rcases hn : s.nodes with _ | ⟨a, t⟩
    · exact absurd hn hne
    · rw [hn] at hd
      have hiid : ((processMergeRequest preferences baseProjectUrl s mr).nodes.get? 0).map
          (fun m => m.dataset.iid) =
          (((processMergeRequest preferences baseProjectUrl s mr).nodes.get? 0).map
            (fun m => m.dataset)).map (fun d => d.iid) := by
        rcases (processMergeRequest preferences baseProjectUrl s mr).nodes.get? 0 with _ | x <;> rfl
      rw [hiid, hd]
      rfl

/-- Counterexample to claim C6 as stated: a record (iid 1, id 5) that
matches no rendered item — the only item's token is `"2"` — is not
dropped and no diagnostic is logged; it is annotated onto that
non-corresponding first item. -/
theorem claim6_counterexample :
    extractMergeRequestId "!2" = "2" ∧
    toString (1 : Nat) = "1" ∧
    ((processMergeRequest { display_source_and_target_branches := false } ""
        { nodes :=
            [{ refText := "!2", hasMainInfo := true, branchInfoNodes := [], dataset := {} }],
          errorLog := [] }
        { id := 5, iid := 1, title := "T", web_url := "u", author := { name := "A" },
          state := "opened", source_branch := "s", target_branch := "m",
          work_in_progress := false }).nodes.get? 0).map
        (fun m => m.dataset.title) = some (some "T") ∧
    (processMergeRequest { display_source_and_target_branches := false } ""
        { nodes :=
            [{ refText := "!2", hasMainInfo := true, branchInfoNodes := [], dataset := {} }],
          errorLog := [] }
        { id := 5, iid := 1, title := "T", web_url := "u", author := { name := "A" },
          state := "opened", source_branch := "s", target_branch := "m",
          work_in_progress := false }).errorLog = [] := by
  refine ⟨rfl, rfl, ?_, ?_⟩ <;> decide

/-- Concrete instance of claim C6's amended theorem: with no rendered
node at all, the record is dropped with the diagnostic naming iid and
id. -/
theorem claim6_witness :
    processMergeRequest { display_source_and_target_branches := true } ""
        { nodes := [], errorLog := [] }
        { id := 5, iid := 1, title := "T", web_url := "u", author := { name := "A" },
          state := "opened", source_branch := "s", target_branch := "m",
          work_in_progress := false } =
      { nodes := [], errorLog := ["Could not find MR node for IID: 1 or ID: 5"] } :=
  ((claim6_unmatched_record_first_node_fallback
    { display_source_and_target_branches := true } ""
    { nodes := [], errorLog := [] }
    { id := 5, iid := 1, title := "T", web_url := "u", author := { name := "A" },
      state := "opened", source_branch := "s", target_branch := "m",
      work_in_progress := false }
    (by decide)).1 rfl).trans (by decide)

/- ## Claim C2 -/

theorem countBranchNodes_listModify_preserving (g : MrNode → MrNode)
    (hg : ∀ x, (g x).branchInfoNodes = x.branchInfoNodes) (j : Nat)
    (l : List MrNode) (i : Nat) :
    countBranchNodes (listModify g j l) i = countBranchNodes l i := by
  by_cases hij : i = j
  · subst hij
    unfold countBranchNodes
    rw [get?_listModify_self]
    rcases l.get? i with _ | n
    · rfl
    · simp [hg]
  · unfold countBranchNodes
    rw [get?_listModify_ne g l i j hij]

theorem countBranchNodes_listModify_add_one (g : MrNode → MrNode)
    (hg : ∀ x, (g x).branchInfoNodes.length = x.branchInfoNodes.length + 1) (j : Nat)
    (l : List MrNode) (i : Nat) :
    countBranchNodes (listModify g j l) i ≤
      countBranchNodes l i + (if (some j : Option Nat) = some i then 1 else 0) := by
  by_cases hij : i = j
  · subst hij
    unfold countBranchNodes
    rw [get?_listModify_self, if_pos rfl]
    rcases l.get? i with _ | n
    · exact Nat.zero_le _
    · simp [hg]
  · unfold countBranchNodes
    rw [get?_listModify_ne g l i j hij,
      if_neg (fun h => hij (Option.some.inj h).symm)]
    exact Nat.le_refl _

/-- One reconciliation step adds at most one branch node, and only at
the index the record landed on. -/
theorem countBranch_process_le (preferences : Preferences) (baseProjectUrl : String)
    (s : UpdateState) (mr : MergeRequest) (i : Nat) :
    countBranchNodes (processMergeRequest preferences baseProjectUrl s mr).nodes i ≤
      countBranchNodes s.nodes i +
        (if findMergeRequestNode s.nodes mr = some i then 1 else 0) := by
  rcases hfind : findMergeRequestNode s.nodes mr with _ | j
  · simp [processMergeRequest, hfind]
  · have hset : countBranchNodes (listModify
        (fun n => setDataAttributesToMergeRequestNode n mr) j s.nodes) i =
        countBranchNodes s.nodes i :=
      countBranchNodes_listModify_preserving
        (fun n => setDataAttributesToMergeRequestNode n mr) (fun x => rfl) j s.nodes i
    simp only [processMergeRequest, hfind]
    split
    · split
      · split
        · refine Nat.le_trans (countBranchNodes_listModify_add_one
            (fun m => { m with branchInfoNodes :=
              m.branchInfoNodes ++ [branchInfoLine baseProjectUrl mr] })
            (fun x => by simp) j _ i) ?_
          rw [hset]
        · rw [hset]
          exact Nat.le_add_right _ _
      · rw [hset]
        exact Nat.le_add_right _ _
    · rw [hset]
      exact Nat.le_add_right _ _

theorem count_cons_ite (x y : Option Nat) (t : List (Option Nat)) :
    (x :: t).count y = t.count y + (if x = y then 1 else 0) := by
  by_cases h : x = y <;> simp [List.count_cons, h]

/-- Per item, a reconciliation pass adds at most as many branch nodes
as records landing on that item. -/
theorem countBranch_update_le (preferences : Preferences) (baseProjectUrl : String) :
    ∀ (mergeRequests : List MergeRequest) (s : UpdateState) (i : Nat),
      countBranchNodes
          (updateMergeRequestsNodes preferences baseProjectUrl s mergeRequests).nodes i ≤
        countBranchNodes s.nodes i +
          (runLandings preferences baseProjectUrl s mergeRequests).count (some i) := by
  intro mergeRequests
  induction mergeRequests with
  | nil => intro s i; simp [updateMergeRequestsNodes, runLandings]
  | cons mr rest ih =>
    intro s i
    have hstep := countBranch_process_le preferences baseProjectUrl s mr i
    have hrec := ih (processMergeRequest preferences baseProjectUrl s mr) i
    have hfold : updateMergeRequestsNodes preferences baseProjectUrl s (mr :: rest) =
        updateMergeRequestsNodes preferences baseProjectUrl
          (processMergeRequest preferences baseProjectUrl s mr) rest := rfl
    rw [hfold]
    refine Nat.le_trans hrec ?_
    have hland : runLandings preferences baseProjectUrl s (mr :: rest) =
        findMergeRequestNode s.nodes mr ::
          runLandings preferences baseProjectUrl
            (processMergeRequest preferences baseProjectUrl s mr) rest := rfl
    rw [hland, count_cons_ite]
    have := Nat.add_le_add_right hstep
      ((runLandings preferences baseProjectUrl
        (processMergeRequest preferences baseProjectUrl s mr) rest).count (some i))
    refine Nat.le_trans this ?_
    by_cases hx : findMergeRequestNode s.nodes mr = some i <;>
      simp [hx] <;> omega

theorem countBranchNodes_removeExisting (l : List MrNode) (i : Nat) :
    countBranchNodes (removeExistingTargetBranchNodes l) i = 0 := by
  unfold countBranchNodes removeExistingTargetBranchNodes
  rw [List.get?_map]
  rcases l.get? i with _ | n <;> rfl

theorem count_some_eq_count_filterMap (i : Nat) :
    ∀ l : List (Option Nat), l.count (some i) = (l.filterMap id).count i := by
  intro l
  induction l with
  | nil => rfl
  | cons x t ih =>
    rcases x with _ | a
    · rw [count_cons_ite, if_neg (by exact fun h => Option.noConfusion h)]
      simpa using ih
    · rw [count_cons_ite]
      have : (List.filterMap id (some a :: t)) = a :: List.filterMap id t := by simp
      rw [this]
      by_cases ha : a = i
      · subst ha
        simp [List.count_cons, ih]
      · rw [if_neg (by simpa using ha)]
        simp [List.count_cons, ha, ih]

theorem count_some_le_one {l : List (Option Nat)}
    (h : (l.filterMap id).Nodup) (i : Nat) : l.count (some i) ≤ 1 := by
  rw [count_some_eq_count_filterMap]
  exact List.nodup_iff_count_le_one.mp h i

/-- Claim C2 (amended): with branch display enabled, re-running
reconciliation over the same rendered set and records yields at most
one injected branch-path node per item provided the run's matching
resolves the records to pairwise-distinct items; every pre-existing
branch-path node is removed before the new info blocks are appended,
so repeated runs never accumulate.  (When several records of one batch
resolve to the same item — possible because matching is
substring-based with a first-node fallback — that item receives one
node per matching record, already on a single run, see the
counterexample.) -/
theorem claim2_rerun_at_most_one_branch_node (preferences : Preferences)
    (baseProjectUrl : String) (s : UpdateState) (mergeRequests : List MergeRequest)
    (i : Nat)
    (hpref : preferences.display_source_and_target_branches = true)
    (hinj : ((runLandings preferences baseProjectUrl
        { fetchMergeRequestsDetailsThenUpdateUI preferences baseProjectUrl s
            mergeRequests with
          nodes := removeExistingTargetBranchNodes
            (fetchMergeRequestsDetailsThenUpdateUI preferences baseProjectUrl s
              mergeRequests).nodes }
        mergeRequests).filterMap id).Nodup) :
    countBranchNodes
      (fetchMergeRequestsDetailsThenUpdateUI preferences baseProjectUrl
        (fetchMergeRequestsDetailsThenUpdateUI preferences baseProjectUrl s mergeRequests)
        mergeRequests).nodes i ≤ 1 := by
  set s1 := fetchMergeRequestsDetailsThenUpdateUI preferences baseProjectUrl s
    mergeRequests with hs1
  have hcycle : fetchMergeRequestsDetailsThenUpdateUI preferences baseProjectUrl s1
      mergeRequests =
      updateMergeRequestsNodes preferences baseProjectUrl
        { s1 with nodes := removeExistingTargetBranchNodes s1.nodes } mergeRequests := by
    unfold fetchMergeRequestsDetailsThenUpdateUI
    rw [if_pos hpref]
  rw [hcycle]
  refine Nat.le_trans (countBranch_update_le preferences baseProjectUrl mergeRequests
    { s1 with nodes := removeExistingTargetBranchNodes s1.nodes } i) ?_
  rw [show ({ s1 with nodes := removeExistingTargetBranchNodes s1.nodes } :
      UpdateState).nodes = removeExistingTargetBranchNodes s1.nodes from rfl]
  rw [countBranchNodes_removeExisting]
  simpa using count_some_le_one hinj i

/-- Counterexample to claim C2 as stated: one rendered item whose
reference text `"!12"` contains both `"!12"` and `"!1"`; the batch of
two records (iids 12 and 1) lands twice on it, so re-running
reconciliation over the same rendered set and same records leaves two
injected branch-path nodes on that single item. -/
theorem claim2_counterexample :
    countBranchNodes
      (fetchMergeRequestsDetailsThenUpdateUI
        { display_source_and_target_branches := true } "b"
        (fetchMergeRequestsDetailsThenUpdateUI
          { display_source_and_target_branches := true } "b"
          { nodes :=
              [{ refText := "!12", hasMainInfo := true, branchInfoNodes := [],
                 dataset := {} }],
            errorLog := [] }
          [{ id := 2, iid := 12, title := "T12", web_url := "u12",
             author := { name := "A" }, state := "opened", source_branch := "a",
             target_branch := "m", work_in_progress := false },
           { id := 3, iid := 1, title := "T1", web_url := "u1",
             author := { name := "A" }, state := "opened", source_branch := "b2",
             target_branch := "m", work_in_progress := false }])
        [{ id := 2, iid := 12, title := "T12", web_url := "u12",
           author := { name := "A" }, state := "opened", source_branch := "a",
           target_branch := "m", work_in_progress := false },
         { id := 3, iid := 1, title := "T1", web_url := "u1",
           author := { name := "A" }, state := "opened", source_branch := "b2",
           target_branch := "m", work_in_progress := false }]).nodes 0 = 2 := by
  decide

/-- Concrete instance of claim C2's amended theorem: one item, one
record, branch display on, run twice. -/
theorem claim2_witness :
    countBranchNodes
      (fetchMergeRequestsDetailsThenUpdateUI
        { display_source_and_target_branches := true } "b"
        (fetchMergeRequestsDetailsThenUpdateUI
          { display_source_and_target_branches := true } "b"
          { nodes :=
              [{ refText := "!1", hasMainInfo := true, branchInfoNodes := [],
                 dataset := {} }],
            errorLog := [] }
          [{ id := 9, iid := 1, title := "T", web_url := "u",
             author := { name := "A" }, state := "opened", source_branch := "sb",
             target_branch := "m", work_in_progress := false }])
        [{ id := 9, iid := 1, title := "T", web_url := "u",
           author := { name := "A" }, state := "opened", source_branch := "sb",
           target_branch := "m", work_in_progress := false }]).nodes 0 ≤ 1 :=
  claim2_rerun_at_most_one_branch_node
    { display_source_and_target_branches := true } "b"
    { nodes :=
        [{ refText := "!1", hasMainInfo := true, branchInfoNodes := [], dataset := {} }],
      errorLog := [] }
    [{ id := 9, iid := 1, title := "T", web_url := "u",
       author := { name := "A" }, state := "opened", source_branch := "sb",
       target_branch := "m", work_in_progress := false }]
    0 rfl (by decide)

/- ## Claim C3 -/

/-- Full behaviour of the polling loop, by induction on the remaining
fuel (`maxAttempts - attempts - 1`). -/
theorem checkForMergeRequests_spec (doc : Nat → DocState) :
    ∀ (fuel attempts : Nat),
      (attempts + 1 ≤ (checkForMergeRequests doc fuel attempts).attemptsMade ∧
        (checkForMergeRequests doc fuel attempts).attemptsMade ≤ attempts + fuel + 1) ∧
      (checkForMergeRequests doc fuel attempts).delaysMs =
        List.replicate
          ((checkForMergeRequests doc fuel attempts).attemptsMade - (attempts + 1)) 1000 ∧
      ((∀ k, attempts + 1 ≤ k → k ≤ attempts + fuel + 1 →
          (findMrElements (doc k)).isEmpty = true) →
        (checkForMergeRequests doc fuel attempts).foundAttempt = none ∧
        (checkForMergeRequests doc fuel attempts).fetchIssued = false ∧
        (checkForMergeRequests doc fuel attempts).diagnostics ≠ [] ∧
        (checkForMergeRequests doc fuel attempts).attemptsMade = attempts + fuel + 1) ∧
      (∀ k, attempts + 1 ≤ k → k ≤ attempts + fuel + 1 →
        (findMrElements (doc k)).isEmpty = false →
        (∀ j, attempts + 1 ≤ j → j < k → (findMrElements (doc j)).isEmpty = true) →
        (checkForMergeRequests doc fuel attempts).foundAttempt = some k ∧
        (checkForMergeRequests doc fuel attempts).fetchIssued = true ∧
        (checkForMergeRequests doc fuel attempts).attemptsMade = k ∧
        (checkForMergeRequests doc fuel attempts).extractedIds =
          (findMrElements (doc k)).map extractMergeRequestId) := by
  intro fuel
  induction fuel with
  | zero =>
    intro attempts
    by_cases he : (findMrElements (doc (attempts + 1))).isEmpty = true
    · have hout : checkForMergeRequests doc 0 attempts =
          exhaustedOutcome (attempts + 1) := by
        simp only [checkForMergeRequests]
        rw [if_pos he]
      have hA : (checkForMergeRequests doc 0 attempts).attemptsMade = attempts + 1 := by
        rw [hout]
        try rfl
      have hF : (checkForMergeRequests doc 0 attempts).foundAttempt = none := by
        rw [hout]
        try rfl
      have hFi : (checkForMergeRequests doc 0 attempts).fetchIssued = false := by
        rw [hout]
        try rfl
      have hDg : (checkForMergeRequests doc 0 attempts).diagnostics ≠ [] := by
        rw [hout]
        simp [exhaustedOutcome]
      have hDl : (checkForMergeRequests doc 0 attempts).delaysMs = [] := by
        rw [hout]
        try rfl
      refine ⟨⟨by omega, by omega⟩, ?_, ?_, ?_⟩
      · rw [hDl, hA]
        simp
      · intro _
        exact ⟨hF, hFi, hDg, by omega⟩
      · intro k hk1 hk2 hk _
        have hke : k = attempts + 1 := by omega
        rw [hke, he] at hk
        exact Bool.noConfusion hk
    · replace he : (findMrElements (doc (attempts + 1))).isEmpty = false := by
        rcases hb : (findMrElements (doc (attempts + 1))).isEmpty
        · rfl
        · exact absurd hb he
      have hout : checkForMergeRequests doc 0 attempts =
          foundOutcome (attempts + 1) (findMrElements (doc (attempts + 1))) := by
        simp only [checkForMergeRequests]
        rw [if_neg (by simp [he])]
      have hA : (checkForMergeRequests doc 0 attempts).attemptsMade = attempts + 1 := by
        rw [hout]
        try rfl
      have hF : (checkForMergeRequests doc 0 attempts).foundAttempt =
          some (attempts + 1) := by
        rw [hout]
        try rfl
      have hFi : (checkForMergeRequests doc 0 attempts).fetchIssued = true := by
        rw [hout]
        try rfl
      have hIds : (checkForMergeRequests doc 0 attempts).extractedIds =
          (findMrElements (doc (attempts + 1))).map extractMergeRequestId := by
        rw [hout]
        try rfl
      have hDl : (checkForMergeRequests doc 0 attempts).delaysMs = [] := by
        rw [hout]
        try rfl
      refine ⟨⟨by omega, by omega⟩, ?_, ?_, ?_⟩
      · rw [hDl, hA]
        simp
      · intro h
        rw [h (attempts + 1) (Nat.le_refl _) (by omega)] at he
        exact Bool.noConfusion he
      · intro k hk1 hk2 hk _
        have hke : k = attempts + 1 := by omega
        subst hke
        exact ⟨hF, hFi, hA, hIds⟩
  | succ f ih =>
    intro attempts
    by_cases he : (findMrElements (doc (attempts + 1))).isEmpty = true
    · have hout : checkForMergeRequests doc (f + 1) attempts =
          { checkForMergeRequests doc f (attempts + 1) with
            delaysMs := 1000 :: (checkForMergeRequests doc f (attempts + 1)).delaysMs } := by
        simp only [checkForMergeRequests]
        rw [if_pos he]
      obtain ⟨⟨hb1, hb2⟩, hdel, hex, hfd⟩ := ih (attempts + 1)
      have hA : (checkForMergeRequests doc (f + 1) attempts).attemptsMade =
          (checkForMergeRequests doc f (attempts + 1)).attemptsMade := by
        rw [hout]
        try rfl
      have hF : (checkForMergeRequests doc (f + 1) attempts).foundAttempt =
          (checkForMergeRequests doc f (attempts + 1)).foundAttempt := by
        rw [hout]
        try rfl
      have hFi : (checkForMergeRequests doc (f + 1) attempts).fetchIssued =
          (checkForMergeRequests doc f (attempts + 1)).fetchIssued := by
        rw [hout]
        try rfl
      have hDg : (checkForMergeRequests doc (f + 1) attempts).diagnostics =
          (checkForMergeRequests doc f (attempts + 1)).diagnostics := by
        rw [hout]
        try rfl
      have hIds : (checkForMergeRequests doc (f + 1) attempts).extractedIds =
          (checkForMergeRequests doc f (attempts + 1)).extractedIds := by
        rw [hout]
        try rfl
      have hDl : (checkForMergeRequests doc (f + 1) attempts).delaysMs =
          1000 :: (checkForMergeRequests doc f (attempts + 1)).delaysMs := by
        rw [hout]
        try rfl
      refine ⟨⟨by rw [hA]; omega, by rw [hA]; omega⟩, ?_, ?_, ?_⟩
      · rw [hDl, hA, hdel]
        have hsub : (checkForMergeRequests doc f (attempts + 1)).attemptsMade -
            (attempts + 1) =
            ((checkForMergeRequests doc f (attempts + 1)).attemptsMade -
              (attempts + 1 + 1)) + 1 := by omega
        rw [hsub, List.replicate_succ]
      · intro h
        obtain ⟨e1, e2, e3, e4⟩ := hex (fun k hk1 hk2 => h k (by omega) (by omega))
        refine ⟨by rw [hF]; exact e1, by rw [hFi]; exact e2,
          by rw [hDg]; exact e3, by rw [hA]; omega⟩
      · intro k hk1 hk2 hk hprev
        have hkne : k ≠ attempts + 1 := by
          intro hkeq
          rw [hkeq, he] at hk
          exact Bool.noConfusion hk
        obtain ⟨f1, f2, f3, f4⟩ := hfd k (by omega) (by omega) hk
          (fun j hj1 hj2 => hprev j (by omega) hj2)
        exact ⟨by rw [hF]; exact f1, by rw [hFi]; exact f2,
          by rw [hA]; exact f3, by rw [hIds]; exact f4⟩
    · replace he : (findMrElements (doc (attempts + 1))).isEmpty = false := by
        rcases hb : (findMrElements (doc (attempts + 1))).isEmpty
        · rfl
        · exact absurd hb he
      have hout : checkForMergeRequests doc (f + 1) attempts =
          foundOutcome (attempts + 1) (findMrElements (doc (attempts + 1))) := by
        simp only [checkForMergeRequests]
        rw [if_neg (by simp [he])]
      have hA : (checkForMergeRequests doc (f + 1) attempts).attemptsMade =
          attempts + 1 := by
        rw [hout]
        try rfl
      have hF : (checkForMergeRequests doc (f + 1) attempts).foundAttempt =
          some (attempts + 1) := by
        rw [hout]
        try rfl
      have hFi : (checkForMergeRequests doc (f + 1) attempts).fetchIssued = true := by
        rw [hout]
        try rfl
      have hIds : (checkForMergeRequests doc (f + 1) attempts).extractedIds =
          (findMrElements (doc (attempts + 1))).map extractMergeRequestId := by
        rw [hout]
        try rfl
      have hDl : (checkForMergeRequests doc (f + 1) attempts).delaysMs = [] := by
        rw [hout]
        try rfl
      refine ⟨⟨by omega, by omega⟩, ?_, ?_, ?_⟩
      · rw [hDl, hA]
        simp
      · intro h
        rw [h (attempts + 1) (Nat.le_refl _) (by omega)] at he
        exact Bool.noConfusion he
      · intro k hk1 hk2 hk hprev
        have hke : k = attempts + 1 := by
          by_contra hne
          have hcontra : (findMrElements (doc (attempts + 1))).isEmpty = true :=
            hprev (attempts + 1) (Nat.le_refl _) (by omega)
          rw [hcontra] at he
          exact Bool.noConfusion he
        subst hke
        exact ⟨hF, hFi, hA, hIds⟩

/-- Claim C3: the Readiness Poller performs at most `maxAttempts = 10`
attempts separated by fixed 1000 ms delays and always terminates (the
loop is structurally bounded): the first attempt within the budget
that finds at least one rendered element proceeds to identity
extraction and triggers the fetch, and when no attempt up to attempt
10 finds any element the loop ends with a diagnostic — without
throwing, modelled by the total outcome value — and never issues a
fetch. -/
theorem claim3_poller_bounded_and_terminates (doc : Nat → DocState) :
    (waitForMergeRequestsAndProcess doc).attemptsMade ≤ maxAttempts ∧
    (waitForMergeRequestsAndProcess doc).delaysMs =
      List.replicate ((waitForMergeRequestsAndProcess doc).attemptsMade - 1) 1000 ∧
    ((∀ k, 1 ≤ k → k ≤ maxAttempts → (findMrElements (doc k)).isEmpty = true) →
      (waitForMergeRequestsAndProcess doc).foundAttempt = none ∧
      (waitForMergeRequestsAndProcess doc).fetchIssued = false ∧
      (waitForMergeRequestsAndProcess doc).diagnostics ≠ [] ∧
      (waitForMergeRequestsAndProcess doc).attemptsMade = maxAttempts) ∧
    (∀ k, 1 ≤ k → k ≤ maxAttempts → (findMrElements (doc k)).isEmpty = false →
      (∀ j, 1 ≤ j → j < k → (findMrElements (doc j)).isEmpty = true) →
      (waitForMergeRequestsAndProcess doc).foundAttempt = some k ∧
      (waitForMergeRequestsAndProcess doc).fetchIssued = true ∧
      (waitForMergeRequestsAndProcess doc).extractedIds =
        (findMrElements (doc k)).map extractMergeRequestId) := by
  have hmax : maxAttempts = 10 := rfl
  obtain ⟨⟨hb1, hb2⟩, hdel, hex, hfd⟩ := checkForMergeRequests_spec doc 9 0
  have hw : waitForMergeRequestsAndProcess doc = checkForMergeRequests doc 9 0 := rfl
  rw [hw, hmax]
  refine ⟨by omega, by simpa using hdel, ?_, ?_⟩
  · intro h
    obtain ⟨e1, e2, e3, e4⟩ := hex (fun k hk1 hk2 => h k (by omega) (by omega))
    exact ⟨e1, e2, e3, by omega⟩
  · intro k hk1 hk2 hk hprev
    obtain ⟨f1, f2, f3, f4⟩ := hfd k (by omega) (by omega) hk
      (fun j hj1 hj2 => hprev j (by omega) hj2)
    exact ⟨f1, f2, f4⟩

/-- Concrete instance of claim C3's theorem: a document that never
renders any element exhausts the budget, issues no fetch and reports
the diagnostic after exactly 10 attempts. -/
theorem claim3_witness :
    (waitForMergeRequestsAndProcess (fun _ => { bySelector := [] })).fetchIssued = false ∧
    (waitForMergeRequestsAndProcess (fun _ => { bySelector := [] })).attemptsMade = 10 ∧
    (waitForMergeRequestsAndProcess (fun _ => { bySelector := [] })).diagnostics ≠ [] := by
  obtain ⟨-, -, hex, -⟩ :=
    claim3_poller_bounded_and_terminates (fun _ => { bySelector := [] })
  obtain ⟨e1, e2, e3, e4⟩ := hex (fun k _ _ => rfl)
  exact ⟨e2, e4.trans rfl, e3⟩

/- ## Claim C5 -/

theorem trimRight_idem : ∀ cs : List Char, trimRight (trimRight cs) = trimRight cs := by
  intro cs
  induction cs with
  | nil => rfl
  | cons c cs ih =>
    simp only [trimRight]
    by_cases h : ((trimRight cs).isEmpty && isWsChar c) = true
    · rw [if_pos h]
      rfl
    · rw [if_neg h]
      simp only [trimRight, ih]
      rw [if_neg h]

theorem trimRight_eq_cons :
    ∀ (l : List Char) (c : Char) (r : List Char), trimRight l = c :: r →
      ∃ t, l = c :: t := by
  intro l c r h
  cases l with
  | nil => exact List.noConfusion h
  | cons d t =>
    simp only [trimRight] at h
    by_cases hc : ((trimRight t).isEmpty && isWsChar d) = true
    · rw [if_pos hc] at h
      exact List.noConfusion h
    · rw [if_neg hc] at h
      injection h with h1 h2
      exact ⟨t, by rw [h1]⟩

theorem dropWhile_head_not (p : Char → Bool) :
    ∀ (l : List Char) (c : Char) (r : List Char),
      List.dropWhile p l = c :: r → p c = false := by
  intro l
  induction l with
  | nil => intro c r h; exact List.noConfusion h
  | cons a t ih =>
    intro c r h
    rw [List.dropWhile_cons] at h
    by_cases hp : p a = true
    · rw [if_pos hp] at h
      exact ih c r h
    · rw [if_neg hp] at h
      injection h with h1 h2
      rw [← h1]
      exact Bool.eq_false_iff.mpr hp

theorem dropWhile_trimChars (cs : List Char) :
    List.dropWhile isWsChar (trimChars cs) = trimChars cs := by
  rcases h : trimChars cs with _ | ⟨c, r⟩
  · rfl
  · obtain ⟨t, ht⟩ := trimRight_eq_cons (List.dropWhile isWsChar cs) c r h
    have hc : isWsChar c = false := dropWhile_head_not isWsChar cs c t ht
    rw [List.dropWhile_cons, if_neg (by simp [hc])]

theorem trimChars_idem (cs : List Char) :
    trimChars (trimChars cs) = trimChars cs := by
  show trimRight (List.dropWhile isWsChar (trimChars cs)) = trimChars cs
  rw [dropWhile_trimChars]
  show trimRight (trimRight (List.dropWhile isWsChar cs)) =
    trimRight (List.dropWhile isWsChar cs)
  exact trimRight_idem _

theorem trimChars_space_cons (cs : List Char) :
    trimChars (' ' :: trimChars cs) = trimChars cs := by
  show trimRight (List.dropWhile isWsChar (' ' :: trimChars cs)) = trimChars cs
  rw [List.dropWhile_cons, if_pos (by decide), dropWhile_trimChars]
  show trimRight (trimRight (List.dropWhile isWsChar cs)) =
    trimRight (List.dropWhile isWsChar cs)
  exact trimRight_idem _

theorem jsTrim_idem (s : String) : jsTrim (jsTrim s) = jsTrim s :=
  congrArg String.mk (trimChars_idem s.data)

theorem jsTrim_space_string (s : String) :
    jsTrim ⟨' ' :: (jsTrim s).data⟩ = jsTrim s :=
  congrArg String.mk (trimChars_space_cons s.data)

theorem wip_data (x : String) :
    ("WIP: " ++ x).data = 'W' :: 'I' :: 'P' :: ':' :: ' ' :: x.data := rfl

theorem hasWip_append (x : String) : hasWipMarker ("WIP: " ++ x) = true := by
  rw [hasWipMarker, wip_data]
  simp [startsWithChars]

theorem stripWip_append (x : String) :
    stripWipMarker ("WIP: " ++ x) = ⟨' ' :: x.data⟩ := by
  rw [stripWipMarker, if_pos (hasWip_append x), wip_data]
  rfl

theorem hasWip_exists {s : String} (h : hasWipMarker s = true) :
    ∃ r, s.data = 'W' :: 'I' :: 'P' :: ':' :: r := by
  rw [hasWipMarker] at h
  rcases hd : s.data with _ | ⟨c1, _ | ⟨c2, _ | ⟨c3, _ | ⟨c4, r⟩⟩⟩⟩ <;>
    rw [hd] at h <;> simp [startsWithChars] at h
  obtain ⟨h1, h2, h3, h4⟩ := h
  subst h1
  subst h2
  subst h3
  subst h4
  exact ⟨r, rfl⟩

/-- Appending to a list whose trim-right result is a cons keeps the
head; a non-whitespace head passes through `trimRight` unchanged. -/
theorem trimRight_cons_not_ws (c : Char) (hc : isWsChar c = false) (cs : List Char) :
    trimRight (c :: cs) = c :: trimRight cs := by
  have hfalse : ((trimRight cs).isEmpty && isWsChar c) = false := by
    rw [hc, Bool.and_false]
  simp [trimRight, hfalse]

/-- Trimming cannot remove a leading `WIP:` marker: the marker's
characters are not whitespace. -/
theorem hasWip_trim_mono {s : String} (h : hasWipMarker s = true) :
    hasWipMarker (jsTrim s) = true := by
  obtain ⟨r, hd⟩ := hasWip_exists h
  have htc : trimChars s.data = 'W' :: 'I' :: 'P' :: ':' :: trimRight r := by
    rw [trimChars, hd, List.dropWhile_cons, if_neg (by decide)]
    rw [trimRight_cons_not_ws 'W' (by decide), trimRight_cons_not_ws 'I' (by decide),
      trimRight_cons_not_ws 'P' (by decide), trimRight_cons_not_ws ':' (by decide)]
  show startsWithChars (trimChars s.data) ['W', 'I', 'P', ':'] = true
  rw [htc]
  simp [startsWithChars]

/-- One toggle invocation on a work-in-progress item: the stripped,
trimmed title is sent and the response fields are written back. -/
theorem toggle_once_strip (tok : String) (remote : String → MergeRequest)
    (st : ToggleNodeState) (t : String) (ht : st.dataset.title = some t)
    (hflag : wipFlag st.dataset = true) :
    (toggleMergeRequestWipStatus (some tok)
        (fun s => WriteResponse.resolved (remote s)) st).node =
      { dataset := { st.dataset with
                       isWip := some (toString
                         (remote (jsTrim (stripWipMarker t))).work_in_progress),
                       title := some (remote (jsTrim (stripWipMarker t))).title },
        visibleTitle := (remote (jsTrim (stripWipMarker t))).title } := by
  simp [toggleMergeRequestWipStatus, ht, hflag]

/-- One toggle invocation on a non-work-in-progress item: the
marker-prepended trimmed title is sent and the response fields are
written back. -/
theorem toggle_once_prepend (tok : String) (remote : String → MergeRequest)
    (st : ToggleNodeState) (t : String) (ht : st.dataset.title = some t)
    (hflag : wipFlag st.dataset = false) :
    (toggleMergeRequestWipStatus (some tok)
        (fun s => WriteResponse.resolved (remote s)) st).node =
      { dataset := { st.dataset with
                       isWip := some (toString
                         (remote ("WIP: " ++ jsTrim t)).work_in_progress),
                       title := some (remote ("WIP: " ++ jsTrim t)).title },
        visibleTitle := (remote ("WIP: " ++ jsTrim t)).title } := by
  simp [toggleMergeRequestWipStatus, ht, hflag]

/-- Claim C5: for an item whose annotated title and wip flag are
consistent (the flag reflects a single leading `WIP:` marker), toggling
twice with both writes succeeding — the remote echoing the sent title
and reporting the conventional marker-derived wip flag — returns the
stored wip flag to its original boolean and the stored title to its
original value modulo a single marker round-trip
(`wipMarkerRoundTrip`, which only normalises the whitespace the
`trim()` calls touch). -/
theorem claim5_wip_toggle_involutive (tok : String) (remote : String → MergeRequest)
    (hecho : ∀ s, (remote s).title = s)
    (hwip : ∀ s, (remote s).work_in_progress = hasWipMarker s)
    (st : ToggleNodeState) (t : String)
    (hcons : wipConsistent st.dataset t) :
    wipFlag ((toggleMergeRequestWipStatus (some tok)
        (fun s => WriteResponse.resolved (remote s))
        (toggleMergeRequestWipStatus (some tok)
          (fun s => WriteResponse.resolved (remote s)) st).node).node).dataset =
      wipFlag st.dataset ∧
    ((toggleMergeRequestWipStatus (some tok)
        (fun s => WriteResponse.resolved (remote s))
        (toggleMergeRequestWipStatus (some tok)
          (fun s => WriteResponse.resolved (remote s)) st).node).node).dataset.title =
      some (wipMarkerRoundTrip t) := by
  obtain ⟨ht, hcase⟩ := hcons
  rcases hcase with ⟨hw1, hw2, hw3⟩ | ⟨hw1, hw2⟩
  · -- originally work-in-progress
    have hflag1 : wipFlag st.dataset = true := by
      rw [wipFlag, hw1]
      rfl
    rw [toggle_once_strip tok remote st t ht hflag1, hwip, hecho, hw3]
    rw [toggle_once_prepend tok remote
        { dataset := { st.dataset with
                         isWip := some (toString false),
                         title := some (jsTrim (stripWipMarker t)) },
          visibleTitle := jsTrim (stripWipMarker t) }
        (jsTrim (stripWipMarker t)) rfl rfl]
    rw [hwip, hecho, jsTrim_idem, hasWip_append]
    constructor
    · rw [hflag1]
      rfl
    · show some ("WIP: " ++ jsTrim (stripWipMarker t)) = some (wipMarkerRoundTrip t)
      simp [wipMarkerRoundTrip, hw2]
  · -- originally not work-in-progress
    have hflag1 : wipFlag st.dataset = false := beq_eq_false_iff_ne.mpr hw1
    rw [toggle_once_prepend tok remote st t ht hflag1, hwip, hecho, hasWip_append]
    rw [toggle_once_strip tok remote
        { dataset := { st.dataset with
                         isWip := some (toString true),
                         title := some ("WIP: " ++ jsTrim t) },
          visibleTitle := "WIP: " ++ jsTrim t }
        ("WIP: " ++ jsTrim t) rfl rfl]
    rw [hwip, hecho, stripWip_append, jsTrim_space_string, hw2]
    have hmt : hasWipMarker t = false := by
      rcases htm : hasWipMarker t
      · rfl
      · rw [hasWip_trim_mono htm] at hw2
        exact Bool.noConfusion hw2
    constructor
    · rw [hflag1]
      rfl
    · show some (jsTrim t) = some (wipMarkerRoundTrip t)
      simp [wipMarkerRoundTrip, hmt]

/-- Concrete instance of claim C5's theorem: the title `"WIP: fix"`
with flag `"true"` round-trips back to flag `"true"` and title
`"WIP: fix"`. -/
theorem claim5_witness :
    wipFlag ((toggleMergeRequestWipStatus (some "tok")
        (fun s => WriteResponse.resolved
          { id := 1, iid := 1, title := s, web_url := "",
            author := { name := "" }, state := "opened", source_branch := "",
            target_branch := "", work_in_progress := hasWipMarker s })
        (toggleMergeRequestWipStatus (some "tok")
          (fun s => WriteResponse.resolved
            { id := 1, iid := 1, title := s, web_url := "",
              author := { name := "" }, state := "opened", source_branch := "",
              target_branch := "", work_in_progress := hasWipMarker s })
          { dataset := { title := some "WIP: fix", isWip := some "true" },
            visibleTitle := "WIP: fix" }).node).node).dataset = true ∧
    ((toggleMergeRequestWipStatus (some "tok")
        (fun s => WriteResponse.resolved
          { id := 1, iid := 1, title := s, web_url := "",
            author := { name := "" }, state := "opened", source_branch := "",
            target_branch := "", work_in_progress := hasWipMarker s })
        (toggleMergeRequestWipStatus (some "tok")
          (fun s => WriteResponse.resolved
            { id := 1, iid := 1, title := s, web_url := "",
              author := { name := "" }, state := "opened", source_branch := "",
              target_branch := "", work_in_progress := hasWipMarker s })
          { dataset := { title := some "WIP: fix", isWip := some "true" },
            visibleTitle := "WIP: fix" }).node).node).dataset.title =
      some "WIP: fix" := by
  have h := claim5_wip_toggle_involutive "tok"
    (fun s =>
      { id := 1, iid := 1, title := s, web_url := "",
        author := { name := "" }, state := "opened", source_branch := "",
        target_branch := "", work_in_progress := hasWipMarker s })
    (fun s => rfl) (fun s => rfl)
    { dataset := { title := some "WIP: fix", isWip := some "true" },
      visibleTitle := "WIP: fix" }
    "WIP: fix"
    ⟨rfl, Or.inl ⟨rfl, by decide, by decide⟩⟩
  exact ⟨h.1.trans (by decide), h.2.trans (by decide)⟩

end Gmrle
